import Mathlib

/-!
Shallow embedding of the go-solid repository (SOLID-principle examples in Go).
Go `float64` values are modelled as exact rationals `ℚ`; Go's `fmt.Sprintf "%f"`
formatting (six decimal places) is modelled by `goFmtF`; Go strings are Lean
`String`s. Each Go file is embedded in its own namespace:
  SRP — src/unnamed/part_000 (invoice / tax calculation)
  OCP — src/2-OCP/main.go, first program (discounts)
  DIP — src/2-OCP/main.go, second program (payment methods)
  LSP — src/unnamed/part_001 (payment processors)
  ISP — src/4-ISP/main.go (printers and scanners)
-/

/-- `listStarts needle hay` is true when `needle` occurs at the head of `hay`. -/
def listStarts : List Char → List Char → Bool
  | [], _ => true
  | _ :: _, [] => false
  | a :: as, b :: bs => a == b && listStarts as bs

/-- `listHas needle hay` is true when `needle` occurs contiguously in `hay`. -/
def listHas (needle : List Char) : List Char → Bool
  | [] => listStarts needle []
  | c :: t => listStarts needle (c :: t) || listHas needle t

/-- Substring test: `containsSub s sub` holds when `sub` occurs in `s`. -/
def containsSub (s sub : String) : Bool :=
  listHas sub.data s.data

/-- Pad a decimal digit string on the left with zeros to six characters,
matching the six fractional digits of Go's `%f` format. -/
def padLeft6 (s : String) : String :=
  String.mk (List.replicate (6 - s.length) '0') ++ s

/-- Go's `fmt.Sprintf "%f"` on a `float64`, modelled on `ℚ`: the value rounded
to six decimal places (half away from zero for the magnitude), rendered with a
sign, integer part, a dot, and exactly six fractional digits. -/
def goFmtF (q : ℚ) : String :=
  let m : ℕ := (q.num.natAbs * 1000000 * 2 + q.den) / (2 * q.den)
  (if q < 0 then "-" else "") ++ toString (m / 1000000) ++ "." ++
    padLeft6 (toString (m % 1000000))

namespace SRP

/-- `Invoice` struct from src/unnamed/part_000. -/
structure Invoice where
  ID : ℤ
  Amount : ℚ
deriving DecidableEq

/-- `Invoice.CalculateTax` from src/unnamed/part_000: `i.Amount * 0.15`. -/
def Invoice.CalculateTax (i : Invoice) : ℚ :=
  i.Amount * 0.15

/-- State-passing form of `CalculateTax`: the Go method has a value receiver
and performs no assignment, so the invoice component of the result is the
receiver itself. -/
def Invoice.CalculateTaxS (i : Invoice) : Invoice × ℚ :=
  (i, i.CalculateTax)

end SRP

namespace OCP

/-- `HOLIDAY_DISCOUNT_PERCENTAGE` constant from src/2-OCP/main.go. -/
def HOLIDAY_DISCOUNT_PERCENTAGE : ℚ := 0.9

/-- `ROYALTY_DISCOUNT_PERCENTAGE` constant from src/2-OCP/main.go. -/
def ROYALTY_DISCOUNT_PERCENTAGE : ℚ := 0.85

/-- `Invoice` struct from src/2-OCP/main.go (first program). -/
structure Invoice where
  Amount : ℚ
deriving DecidableEq

/-- `HolidayDiscount` struct (no fields). -/
structure HolidayDiscount where
deriving DecidableEq

/-- `HolidayDiscount.ApplyDiscount`: `amount * HOLIDAY_DISCOUNT_PERCENTAGE`. -/
def HolidayDiscount.ApplyDiscount (_ : HolidayDiscount) (amount : ℚ) : ℚ :=
  amount * HOLIDAY_DISCOUNT_PERCENTAGE

/-- `LoyaltyDiscount` struct (no fields). -/
structure LoyaltyDiscount where
deriving DecidableEq

/-- `LoyaltyDiscount.ApplyDiscount`: `amount * ROYALTY_DISCOUNT_PERCENTAGE`. -/
def LoyaltyDiscount.ApplyDiscount (_ : LoyaltyDiscount) (amount : ℚ) : ℚ :=
  amount * ROYALTY_DISCOUNT_PERCENTAGE

/-- The `Discount` interface of src/2-OCP/main.go: the closed set of concrete
types implementing it in the program. -/
inductive Discount where
  | holiday (h : HolidayDiscount)
  | loyalty (l : LoyaltyDiscount)
deriving DecidableEq

/-- Dynamic dispatch of `ApplyDiscount` through the `Discount` interface:
the call resolves to whichever concrete variant is bound. -/
def Discount.ApplyDiscount : Discount → ℚ → ℚ
  | .holiday h, amount => h.ApplyDiscount amount
  | .loyalty l, amount => l.ApplyDiscount amount

/-- One discount application step of `main`: the invoice's `Amount` field is
passed by value to `ApplyDiscount`, so the invoice itself is untouched. -/
def applyStep (inv : Invoice) (d : Discount) : Invoice × ℚ :=
  (inv, d.ApplyDiscount inv.Amount)

end OCP

namespace DIP

/-- `CreditCard` struct from src/2-OCP/main.go (second program, no fields). -/
structure CreditCard where
deriving DecidableEq

/-- `CreditCard.Pay`: `fmt.Sprintf("Paid %f using Credit Card", amount)`. -/
def CreditCard.Pay (_ : CreditCard) (amount : ℚ) : String :=
  "Paid " ++ goFmtF amount ++ " using Credit Card"

/-- `PayPal` struct (no fields). -/
structure PayPal where
deriving DecidableEq

/-- `PayPal.Pay`: `fmt.Sprintf("Paid %f using PayPal", amount)`. -/
def PayPal.Pay (_ : PayPal) (amount : ℚ) : String :=
  "Paid " ++ goFmtF amount ++ " using PayPal"

/-- The `PaymentMethod` interface: the closed set of concrete types
implementing it in the program. -/
inductive PaymentMethod where
  | creditCard (cc : CreditCard)
  | payPal (pp : PayPal)
deriving DecidableEq

/-- Dynamic dispatch of `Pay` through the `PaymentMethod` interface. -/
def PaymentMethod.Pay : PaymentMethod → ℚ → String
  | .creditCard cc, amount => cc.Pay amount
  | .payPal pp, amount => pp.Pay amount

/-- `PaymentProcessor` struct: holds one `PaymentMethod` in its `Method`
field. -/
structure PaymentProcessor where
  Method : PaymentMethod
deriving DecidableEq

/-- `PaymentProcessor.Process` prints `p.Method.Pay(amount)`; we model the
printed line as the returned string. -/
def PaymentProcessor.Process (p : PaymentProcessor) (amount : ℚ) : String :=
  p.Method.Pay amount

/-- State-passing form of `Process`: the Go method has a value receiver and
performs no assignment, so the processor component of the result is the
receiver itself. -/
def PaymentProcessor.ProcessS (p : PaymentProcessor) (amount : ℚ) :
    PaymentProcessor × String :=
  (p, p.Process amount)

/-- The common shape of every `Pay` output: `"Paid <amount> using <label>"`,
parameterised by the variant label. -/
def payShape (label : String) (amount : ℚ) : String :=
  "Paid " ++ goFmtF amount ++ (" using " ++ label)

/-- The label a `PaymentMethod` variant puts at the end of its message. -/
def PaymentMethod.label : PaymentMethod → String
  | .creditCard _ => "Credit Card"
  | .payPal _ => "PayPal"

end DIP

namespace LSP

/-- `CashPayment` struct from src/unnamed/part_001 (no fields). -/
structure CashPayment where
deriving DecidableEq

/-- `CashPayment.ProcessPayment`:
`fmt.Sprintf("Processing cash payment of %f", amount)`. -/
def CashPayment.ProcessPayment (_ : CashPayment) (amount : ℚ) : String :=
  "Processing cash payment of " ++ goFmtF amount

/-- `CardPayment` struct (no fields). -/
structure CardPayment where
deriving DecidableEq

/-- `CardPayment.ProcessPayment`:
`fmt.Sprintf("Processing card payment of %f", amount)`. -/
def CardPayment.ProcessPayment (_ : CardPayment) (amount : ℚ) : String :=
  "Processing card payment of " ++ goFmtF amount

/-- The `PaymentProcessor` interface of src/unnamed/part_001: the closed set
of concrete types implementing it in the program. -/
inductive PaymentProcessor where
  | cash (c : CashPayment)
  | card (c : CardPayment)
deriving DecidableEq

/-- Dynamic dispatch of `ProcessPayment` through the interface: in `main`
the variable `paymentProcessor` holds either variant and the call resolves
to the bound one. -/
def PaymentProcessor.ProcessPayment : PaymentProcessor → ℚ → String
  | .cash c, amount => c.ProcessPayment amount
  | .card c, amount => c.ProcessPayment amount

end LSP

namespace ISP

/-- The two capability methods appearing in src/4-ISP/main.go. -/
inductive Capability where
  | print
  | scan
deriving DecidableEq

/-- `SimplePrinter` struct (no fields). -/
structure SimplePrinter where
deriving DecidableEq

/-- `SimplePrinter.Print` prints `"Printing document"`; we model the printed
line as the returned string. -/
def SimplePrinter.Print (_ : SimplePrinter) : String :=
  "Printing document"

/-- `MultifunctionPrinter` struct (no fields). -/
structure MultifunctionPrinter where
deriving DecidableEq

/-- `MultifunctionPrinter.Print` prints `"Printing document"`. -/
def MultifunctionPrinter.Print (_ : MultifunctionPrinter) : String :=
  "Printing document"

/-- `MultifunctionPrinter.Scan` prints `"Scanning document"`. -/
def MultifunctionPrinter.Scan (_ : MultifunctionPrinter) : String :=
  "Scanning document"

/-- The method set `SimplePrinter` declares in the source: only `Print`
(lines 17-19); there is no `Scan` method on it, so a `scan` call cannot
type-check. -/
def SimplePrinter.provides : Capability → Bool
  | .print => true
  | .scan => false

/-- The method set `MultifunctionPrinter` declares in the source: both
`Print` (lines 24-26) and `Scan` (lines 28-30). -/
def MultifunctionPrinter.provides : Capability → Bool
  | .print => true
  | .scan => true

end ISP

section ContainmentLemmas

lemma listStarts_extend (n : List Char) :
    ∀ h e : List Char, listStarts n h = true → listStarts n (h ++ e) = true := by
  induction n with
  | nil => intro h e _; rfl
  | cons a as ih =>
    intro h e hs
    cases h with
    | nil => exact absurd hs (by simp [listStarts])
    | cons b bs =>
      simp only [listStarts, Bool.and_eq_true] at hs
      simp only [List.cons_append, listStarts, Bool.and_eq_true]
      exact ⟨hs.1, ih bs e hs.2⟩

lemma listStarts_refl (n : List Char) : listStarts n n = true := by
  induction n with
  | nil => rfl
  | cons a as ih => simp [listStarts, ih]

lemma listHas_nil_needle (hay : List Char) : listHas [] hay = true := by
  cases hay <;> simp [listHas, listStarts]

lemma listHas_self (n : List Char) : listHas n n = true := by
  cases n with
  | nil => rfl
  | cons a as => simp [listHas, listStarts_refl]

lemma listHas_append_l (n h1 h2 : List Char) (h : listHas n h1 = true) :
    listHas n (h1 ++ h2) = true := by
  induction h1 with
  | nil =>
    cases n with
    | nil => exact listHas_nil_needle h2
    | cons a as => exact absurd h (by simp [listHas, listStarts])
  | cons c t ih =>
    simp only [listHas, Bool.or_eq_true] at h
    rcases h with h | h
    · simp only [List.cons_append, listHas, Bool.or_eq_true]
      exact Or.inl (listStarts_extend n (c :: t) h2 h)
    · simp only [List.cons_append, listHas, Bool.or_eq_true]
      exact Or.inr (ih h)

lemma listHas_append_r (n h1 h2 : List Char) (h : listHas n h2 = true) :
    listHas n (h1 ++ h2) = true := by
  induction h1 with
  | nil => exact h
  | cons c t ih =>
    simp only [List.cons_append, listHas, Bool.or_eq_true]
    exact Or.inr ih

lemma containsSub_append_left (s t sub : String) (h : containsSub s sub = true) :
    containsSub (s ++ t) sub = true :=
  listHas_append_l sub.data s.data t.data h

lemma containsSub_append_right (s t sub : String) (h : containsSub t sub = true) :
    containsSub (s ++ t) sub = true :=
  listHas_append_r sub.data s.data t.data h

lemma containsSub_self (s : String) : containsSub s s = true :=
  listHas_self s.data

end ContainmentLemmas

/-- C1: for every amount `a ≥ 0`, `HolidayDiscount.ApplyDiscount a` returns
`a * 0.9` and `LoyaltyDiscount.ApplyDiscount a` returns `a * 0.85`. -/
theorem discount_rates (h : OCP.HolidayDiscount) (l : OCP.LoyaltyDiscount)
    (a : ℚ) (_ha : 0 ≤ a) :
    h.ApplyDiscount a = a * 0.9 ∧ l.ApplyDiscount a = a * 0.85 :=
  ⟨rfl, rfl⟩

/-- Witness for C1 at `a = 2`. -/
theorem discount_rates_witness :
    0 ≤ (2 : ℚ) ∧
      ((⟨⟩ : OCP.HolidayDiscount).ApplyDiscount 2 = 2 * 0.9 ∧
        (⟨⟩ : OCP.LoyaltyDiscount).ApplyDiscount 2 = 2 * 0.85) :=
  ⟨by norm_num, discount_rates ⟨⟩ ⟨⟩ 2 (by norm_num)⟩

/-- C2: the `Discount` slot bound to `HolidayDiscount` and invoked with 1000
yields 900; bound to `LoyaltyDiscount` and invoked with 1000 it yields 850. -/
theorem bind_discount_scenario :
    OCP.Discount.ApplyDiscount (.holiday ⟨⟩) 1000 = 900 ∧
      OCP.Discount.ApplyDiscount (.loyalty ⟨⟩) 1000 = 850 := by
  constructor <;>
    · simp only [OCP.Discount.ApplyDiscount, OCP.HolidayDiscount.ApplyDiscount,
        OCP.LoyaltyDiscount.ApplyDiscount, OCP.HOLIDAY_DISCOUNT_PERCENTAGE,
        OCP.ROYALTY_DISCOUNT_PERCENTAGE]
      norm_num

/-- C3 counterexample: `CashPayment.ProcessPayment 500` is
`"Processing cash payment of 500.000000"`, which contains none of the
capitalised labels `"Cash"`, `"Card"`, `"Credit Card"`, `"PayPal"` the claim
names, so the claim as stated fails on the cash variant. -/
theorem payment_label_case_cex :
    containsSub ((⟨⟩ : LSP.CashPayment).ProcessPayment 500) "Cash" = false ∧
      containsSub ((⟨⟩ : LSP.CashPayment).ProcessPayment 500) "Card" = false ∧
      containsSub ((⟨⟩ : LSP.CashPayment).ProcessPayment 500) "Credit Card" = false ∧
      containsSub ((⟨⟩ : LSP.CashPayment).ProcessPayment 500) "PayPal" = false := by
  decide

/-- C3 amended: every payment variant's process/pay output contains the
formatted amount and that variant's label, with the labels as the code writes
them: lowercase `"cash"` and `"card"` for the `PaymentProcessor` variants,
`"Credit Card"` and `"PayPal"` for the `PaymentMethod` variants. -/
theorem payment_labels_amended (a : ℚ) :
    (containsSub (LSP.PaymentProcessor.ProcessPayment (.cash ⟨⟩) a) "cash" = true ∧
      containsSub (LSP.PaymentProcessor.ProcessPayment (.cash ⟨⟩) a) (goFmtF a) = true) ∧
    (containsSub (LSP.PaymentProcessor.ProcessPayment (.card ⟨⟩) a) "card" = true ∧
      containsSub (LSP.PaymentProcessor.ProcessPayment (.card ⟨⟩) a) (goFmtF a) = true) ∧
    (containsSub ((⟨⟩ : DIP.CreditCard).Pay a) "Credit Card" = true ∧
      containsSub ((⟨⟩ : DIP.CreditCard).Pay a) (goFmtF a) = true) ∧
    (containsSub ((⟨⟩ : DIP.PayPal).Pay a) "PayPal" = true ∧
      containsSub ((⟨⟩ : DIP.PayPal).Pay a) (goFmtF a) = true) := by
  refine ⟨⟨?_, ?_⟩, ⟨?_, ?_⟩, ⟨?_, ?_⟩, ⟨?_, ?_⟩⟩
  · exact containsSub_append_left _ _ _ (by decide)
  · exact containsSub_append_right _ _ _ (containsSub_self _)
  · exact containsSub_append_left _ _ _ (by decide)
  · exact containsSub_append_right _ _ _ (containsSub_self _)
  · exact containsSub_append_right _ _ _ (by decide)
  · exact containsSub_append_left _ _ _
      (containsSub_append_right _ _ _ (containsSub_self _))
  · exact containsSub_append_right _ _ _ (by decide)
  · exact containsSub_append_left _ _ _
      (containsSub_append_right _ _ _ (containsSub_self _))

/-- C4: the `PaymentProcessor` slot bound to `CashPayment` and invoked with
500 returns a string containing `"cash"` and `"500"`; bound to `CardPayment`
and invoked with 1000 it returns a string containing `"card"` and `"1000"`. -/
theorem processor_scenarios :
    containsSub (LSP.PaymentProcessor.ProcessPayment (.cash ⟨⟩) 500) "cash" = true ∧
      containsSub (LSP.PaymentProcessor.ProcessPayment (.cash ⟨⟩) 500) "500" = true ∧
      containsSub (LSP.PaymentProcessor.ProcessPayment (.card ⟨⟩) 1000) "card" = true ∧
      containsSub (LSP.PaymentProcessor.ProcessPayment (.card ⟨⟩) 1000) "1000" = true := by
  decide

/-- C5: every capability method is deterministic: invoking the same bound
variant with the same input always produces the same output, for the discount
variants and both families of payment variants. -/
theorem dispatch_deterministic (d : OCP.Discount) (p : LSP.PaymentProcessor)
    (m : DIP.PaymentMethod) (a : ℚ) :
    d.ApplyDiscount a = d.ApplyDiscount a ∧
      p.ProcessPayment a = p.ProcessPayment a ∧
      m.Pay a = m.Pay a :=
  ⟨rfl, rfl, rfl⟩

/-- C6: `CreditCard.Pay` and `PayPal.Pay` produce the common shape
`"Paid <amount> using <label>"`, differing only in the label, and
`PaymentProcessor.Process` returns exactly that shape for whichever variant
its `Method` slot holds. -/
theorem pay_substitutable (cc : DIP.CreditCard) (pp : DIP.PayPal) (a : ℚ) :
    cc.Pay a = DIP.payShape "Credit Card" a ∧
      pp.Pay a = DIP.payShape "PayPal" a ∧
      ∀ m : DIP.PaymentMethod,
        (DIP.PaymentProcessor.mk m).Process a = DIP.payShape m.label a := by
  refine ⟨rfl, rfl, ?_⟩
  intro m
  cases m <;> rfl

/-- C7: `SimplePrinter`'s declared method set provides `Print` but not `Scan`,
so a `scan` call on it cannot resolve; `MultifunctionPrinter` provides both. -/
theorem printer_capability_sets :
    ISP.SimplePrinter.provides .print = true ∧
      ISP.SimplePrinter.provides .scan = false ∧
      ISP.MultifunctionPrinter.provides .print = true ∧
      ISP.MultifunctionPrinter.provides .scan = true := by
  decide

/-- C8: invoking a capability method leaves the caller's state unchanged:
`Process` returns its processor with the `Method` field intact and only the
formatted message as output, and a discount application step leaves the
invoice's `Amount` intact. -/
theorem invoke_no_side_effects (p : DIP.PaymentProcessor) (inv : OCP.Invoice)
    (d : OCP.Discount) (a : ℚ) :
    (p.ProcessS a).1.Method = p.Method ∧
      (p.ProcessS a).2 = p.Method.Pay a ∧
      (OCP.applyStep inv d).1.Amount = inv.Amount ∧
      (OCP.applyStep inv d).2 = d.ApplyDiscount inv.Amount :=
  ⟨rfl, rfl, rfl, rfl⟩

/-- C9: `Invoice.CalculateTax` returns `Amount * 0.15` and leaves the invoice
unchanged. -/
theorem calculateTax_correct (i : SRP.Invoice) :
    i.CalculateTaxS.2 = i.Amount * 0.15 ∧ i.CalculateTaxS.1 = i :=
  ⟨rfl, rfl⟩

/-- C10: `SimplePrinter.Print` and `MultifunctionPrinter.Print` emit the
identical string `"Printing document"`, so the two types are observationally
interchangeable where only the `Printer` capability is used. -/
theorem printers_print_identical (sp : ISP.SimplePrinter)
    (mp : ISP.MultifunctionPrinter) :
    sp.Print = mp.Print ∧ sp.Print = "Printing document" :=
  ⟨rfl, rfl⟩
